import Mathlib

set_option maxRecDepth 100000

/-!
Verification of the GWBrowser native launchers against their specification.

The repository contains two bootstrap executables:
  * `src/build-scripts/win/bin/bookmarks.cpp` (Windows launcher)
  * `src/build-scripts/osx/bin.cpp` (macOS launcher)
and a generated PySide2 binding header
  * `src/modules/PySide2/include/PySide2/QtGui/pyside2_qtgui_python.h`.

The launchers are straight-line C++ `main` functions whose observable behaviour
depends on the results of a fixed set of platform calls (GetModuleFileNameW,
PathRemoveFileSpecW, _wstat, _wgetenv_s, malloc, WideCharToMultiByte,
PyRun_SimpleString).  We embed each launcher as a total Lean function from a
"world" record -- one field per platform call, holding the result of that call --
to a result record describing every externally visible effect: the process
outcome, the modal dialogs shown, the `_wputenv_s` calls issued (as the
(first argument, second argument) pairs passed to the CRT), whether the
interpreter was initialised, the command string handed to the interpreter,
and the sequence of high-level steps executed.
-/

/-- How a launcher process terminates: a normal `exit(code)`, or abnormal
termination via `std::terminate` when a C++ exception escapes `main`. -/
inductive Outcome where
  | exit (code : Nat)
  | abort (msg : String)
deriving DecidableEq, Repr

/-- High-level steps of a launcher run, used to talk about the control-flow
sequence.  Each constructor corresponds to a block of the C++ source:
`resolvePath` = GetModuleFileNameW, `stripFileSpec` = PathRemoveFileSpecW,
`checkDir` = the `_wstat` on the `bin` directory, `setEnv` = a `_wputenv_s`
call, `checkPyDll` = the `_wstat` on `python27.dll`, `initInterp` =
Py_SetProgramName/PyEval_InitThreads/Py_Initialize/PySys_SetArgv,
`runCmd` = PyRun_SimpleString, `report b` = the final exit(0) (`b = true`)
or dialog-plus-exit(1) (`b = false`). -/
inductive Step where
  | resolvePath
  | stripFileSpec
  | checkDir
  | setEnv
  | checkPyDll
  | initInterp
  | runCmd
  | report (ok : Bool)
deriving DecidableEq, Repr

/-- Results of the two `WideCharToMultiByte` calls made by `WstrToUtf8Str`:
`sizeRequired s` is the return value of the size-probing call on input `s`
(the call with a NULL output buffer), and `convertBytes s` is the outcome of
the converting call: `some bytes` when it returns nonzero, having produced
`bytes`, and `none` when it returns 0. -/
structure WideCharOracle where
  sizeRequired : String → Int
  convertBytes : String → Option String

/-- Embedding of `WstrToUtf8Str` (bookmarks.cpp lines 19-48).  Returns the
result of the function -- `.ok` for a normal return, `.error` for the
`throw std::runtime_error` path -- together with the number of
`WideCharToMultiByte` calls performed.  Mirrors the source exactly: an empty
input returns the empty string with no conversion call; a non-positive
`sizeRequired` skips the second call and returns the (still empty) `retStr`;
a zero `bytesConverted` throws; otherwise the converted bytes are returned. -/
def WstrToUtf8Str (o : WideCharOracle) (wstr : String) :
    Except String String × Nat :=
  if wstr.isEmpty then (.ok "", 0)
  else
    let sizeRequired := o.sizeRequired wstr
    if 0 < sizeRequired then
      match o.convertBytes wstr with
      | some bytes => (.ok bytes, 2)
      | none =>
        (.error ("WstrToUtf8Str std::string WstrToUtf8Str failed to convert wstring"), 2)
    else (.ok "", 1)

/-- Constant `S_IFDIR` from `sys/stat.h`, tested by `info.st_mode & S_IFDIR`. -/
def S_IFDIR : Nat := 0x4000

/-- One platform environment for the Windows launcher: the result of every
external call `main` makes.  `getModuleFileNameW` is `some exePath` when the
call succeeds (nonzero return) and `none` when it returns 0;
`pathRemoveFileSpecW p` is `some dir` on success; `wstatMode p` is
`some st_mode` when `_wstat` returns 0 and `none` otherwise; `pathEnv` is
`some value` when the `_wgetenv_s` size probe reports a nonzero size (the
variable exists) and `none` when `envsize` stays 0; `mallocOk` tells whether
the `malloc` of the PATH buffer succeeds; `wideChar` gives the
`WideCharToMultiByte` results; `pyRunSimpleString c` is the int returned by
`PyRun_SimpleString` on the (UTF-8) command `c`. -/
structure WinWorld where
  getModuleFileNameW : Option String
  pathRemoveFileSpecW : String → Option String
  wstatMode : String → Option Nat
  pathEnv : Option String
  mallocOk : Bool
  wideChar : WideCharOracle
  pyRunSimpleString : String → Int

/-- Everything externally visible about one Windows-launcher run.
`envWrites` records each `_wputenv_s` call as the pair
(first argument, second argument); per the CRT contract the first argument
is the variable NAME and the second its VALUE. -/
structure WinResult where
  outcome : Outcome
  dialogs : List String
  envWrites : List (String × String)
  pyInit : Bool
  pyRun : Option (String × Int)
  wideCmd : Option String
  steps : List Step
deriving DecidableEq, Repr

def msgGMFN : String :=
  "Could not start the application:\nGetModuleFileNameW returned a bogus value."
def msgStrip : String :=
  "Could not start the application:\nPathRemoveFileSpecW returned a bogus value."
def msgBinMissing : String :=
  "Could not start the application:\nThe \x27bin\x27 directory seems to be missing."
def msgBinNotDir : String :=
  "Could not start the application:\nThe \x27bin\x27 is not a valid directory."
def msgPathEnvFail : String :=
  "Could not start the application.\nCould not get the PATH environment."
def msgAllocFail : String :=
  "Could not start the application.\nCould not allocate memory."
def msgPyDllMissing : String :=
  "Could not start the application:\nThe \x27python27.dll\x27 seems to be missing."
def msgPyError : String :=
  "Could not start the application.\nAn internal Python error occured."

/-- The wide command string the Windows launcher builds (lines 151-157),
spliced from `modified_path` and `path` exactly as in the source. -/
def winCmd (modified_path path : String) : String :=
  "import os;import sys;os.environ[\x27PATH\x27] = r\x27" ++ modified_path ++
    "\x27;sys.path.insert(0, r\x27" ++ (path ++ "\\shared") ++
    "\x27);import bookmarks; bookmarks.exec_();"

/-- Embedding of the Windows launcher `main` (bookmarks.cpp lines 53-174).
Every branch of the source appears here in source order; each early `exit(1)`
yields the full effect record accumulated up to that point.  The two
`_wputenv_s` calls are recorded verbatim as the argument pairs the source
passes: `(modified_path, "PATH")` and `(pythonpath, "PYTHONPATH")`.  If
`WstrToUtf8Str` throws, no handler exists anywhere in `main`, so the
exception escapes and the process terminates abnormally (`Outcome.abort`). -/
def winMain (w : WinWorld) : WinResult :=
  match w.getModuleFileNameW with
  | none =>
    { outcome := .exit 1, dialogs := [msgGMFN], envWrites := [], pyInit := false,
      pyRun := none, wideCmd := none, steps := [.resolvePath, .report false] }
  | some exePath =>
    match w.pathRemoveFileSpecW exePath with
    | none =>
      { outcome := .exit 1, dialogs := [msgStrip], envWrites := [], pyInit := false,
        pyRun := none, wideCmd := none,
        steps := [.resolvePath, .stripFileSpec, .report false] }
    | some path =>
      let bin_dir := path ++ "\\bin"
      match w.wstatMode bin_dir with
      | none =>
        { outcome := .exit 1, dialogs := [msgBinMissing], envWrites := [],
          pyInit := false, pyRun := none, wideCmd := none,
          steps := [.resolvePath, .stripFileSpec, .checkDir, .report false] }
      | some st_mode =>
        if st_mode &&& S_IFDIR = 0 then
          { outcome := .exit 1, dialogs := [msgBinNotDir], envWrites := [],
            pyInit := false, pyRun := none, wideCmd := none,
            steps := [.resolvePath, .stripFileSpec, .checkDir, .report false] }
        else
          match w.pathEnv with
          | none =>
            { outcome := .exit 1, dialogs := [msgPathEnvFail], envWrites := [],
              pyInit := false, pyRun := none, wideCmd := none,
              steps := [.resolvePath, .stripFileSpec, .checkDir, .report false] }
          | some pathvar =>
            if !w.mallocOk then
              { outcome := .exit 1, dialogs := [msgAllocFail], envWrites := [],
                pyInit := false, pyRun := none, wideCmd := none,
                steps := [.resolvePath, .stripFileSpec, .checkDir, .report false] }
            else
              let modified_path := bin_dir ++ ";" ++ pathvar
              let pydll := path ++ "\\python27.dll"
              match w.wstatMode pydll with
              | none =>
                { outcome := .exit 1, dialogs := [msgPyDllMissing],
                  envWrites := [(modified_path, "PATH")], pyInit := false,
                  pyRun := none, wideCmd := none,
                  steps := [.resolvePath, .stripFileSpec, .checkDir, .setEnv,
                    .checkPyDll, .report false] }
              | some _ =>
                let pythonpath := path ++ "\\shared"
                let wcmd := winCmd modified_path path
                match (WstrToUtf8Str w.wideChar wcmd).1 with
                | .error e =>
                  { outcome := .abort e, dialogs := [],
                    envWrites := [(modified_path, "PATH"), (pythonpath, "PYTHONPATH")],
                    pyInit := true, pyRun := none, wideCmd := some wcmd,
                    steps := [.resolvePath, .stripFileSpec, .checkDir, .setEnv,
                      .checkPyDll, .setEnv, .initInterp] }
                | .ok cmd =>
                  let res := w.pyRunSimpleString cmd
                  if res = -1 then
                    { outcome := .exit 1, dialogs := [msgPyError],
                      envWrites := [(modified_path, "PATH"), (pythonpath, "PYTHONPATH")],
                      pyInit := true, pyRun := some (cmd, res), wideCmd := some wcmd,
                      steps := [.resolvePath, .stripFileSpec, .checkDir, .setEnv,
                        .checkPyDll, .setEnv, .initInterp, .runCmd, .report false] }
                  else
                    { outcome := .exit 0, dialogs := [],
                      envWrites := [(modified_path, "PATH"), (pythonpath, "PYTHONPATH")],
                      pyInit := true, pyRun := some (cmd, res), wideCmd := some wcmd,
                      steps := [.resolvePath, .stripFileSpec, .checkDir, .setEnv,
                        .checkPyDll, .setEnv, .initInterp, .runCmd, .report true] }

/-- One platform environment for the macOS launcher: the only external call
whose result matters is `PyRun_SimpleString`. -/
structure MacWorld where
  pyRunSimpleString : String → Int

/-- Everything externally visible about one macOS-launcher run. -/
structure MacResult where
  outcome : Outcome
  alerts : List String
  pyRun : Option (String × Int)
  steps : List Step
deriving DecidableEq, Repr

/-- The command the macOS launcher runs (bin.cpp line 11). -/
def macCmd : String := "import bookmarks; bookmarks.exec_(); exit(0);"

def msgMacPyError : String :=
  "Could not start the application.\nAn internal Python error occured."

/-- Embedding of the macOS launcher `main` (bin.cpp lines 10-33): initialise
the interpreter, run `macCmd`, and exit 1 behind an alert when
`PyRun_SimpleString` returns -1, else exit 0. -/
def macMain (w : MacWorld) : MacResult :=
  let res := w.pyRunSimpleString macCmd
  if res = -1 then
    { outcome := .exit 1, alerts := [msgMacPyError], pyRun := some (macCmd, res),
      steps := [.initInterp, .runCmd, .report false] }
  else
    { outcome := .exit 0, alerts := [], pyRun := some (macCmd, res),
      steps := [.initInterp, .runCmd, .report true] }

/-- A fully successful Windows world used for concrete evaluation: the
executable resolves to `C:\app\bookmarks.exe`, `bin` exists and is a
directory, PATH is `C:\old`, allocation and conversion succeed, and the
Python command returns 0. -/
def winOkWorld : WinWorld where
  getModuleFileNameW := some "C:\\app\\bookmarks.exe"
  pathRemoveFileSpecW := fun _ => some "C:\\app"
  wstatMode := fun _ => some S_IFDIR
  pathEnv := some "C:\\old"
  mallocOk := true
  wideChar := ⟨fun _ => 1, fun s => some s⟩
  pyRunSimpleString := fun _ => 0

/-! ### Result shapes of the Windows launcher

One abbreviation per exit path of `winMain`, in source order.  These are pure
notation for the records `winMain` produces; the branch lemmas below prove
that every run of `winMain` lands in exactly one of them. -/

/-- Result when `GetModuleFileNameW` fails. -/
def wrResolveFail : WinResult :=
  { outcome := .exit 1, dialogs := [msgGMFN], envWrites := [], pyInit := false,
    pyRun := none, wideCmd := none, steps := [.resolvePath, .report false] }

/-- Result when `PathRemoveFileSpecW` fails. -/
def wrStripFail : WinResult :=
  { outcome := .exit 1, dialogs := [msgStrip], envWrites := [], pyInit := false,
    pyRun := none, wideCmd := none,
    steps := [.resolvePath, .stripFileSpec, .report false] }

/-- Result for the four checks between `PathRemoveFileSpecW` and the first
`_wputenv_s` call (missing `bin`, `bin` not a directory, PATH lookup failure,
allocation failure), parametrised by the dialog text. -/
def wrCheckFail (d : String) : WinResult :=
  { outcome := .exit 1, dialogs := [d], envWrites := [], pyInit := false,
    pyRun := none, wideCmd := none,
    steps := [.resolvePath, .stripFileSpec, .checkDir, .report false] }

/-- Result when `python27.dll` is missing; the PATH `_wputenv_s` call has
already been issued with argument pair `(mp, "PATH")`. -/
def wrDllFail (mp : String) : WinResult :=
  { outcome := .exit 1, dialogs := [msgPyDllMissing], envWrites := [(mp, "PATH")],
    pyInit := false, pyRun := none, wideCmd := none,
    steps := [.resolvePath, .stripFileSpec, .checkDir, .setEnv, .checkPyDll,
      .report false] }

/-- Result when `WstrToUtf8Str` throws: the exception escapes `main`. -/
def wrConvAbort (mp pp wc e : String) : WinResult :=
  { outcome := .abort e, dialogs := [],
    envWrites := [(mp, "PATH"), (pp, "PYTHONPATH")], pyInit := true,
    pyRun := none, wideCmd := some wc,
    steps := [.resolvePath, .stripFileSpec, .checkDir, .setEnv, .checkPyDll,
      .setEnv, .initInterp] }

/-- Result when `PyRun_SimpleString` returns -1. -/
def wrPyErr (mp pp wc c : String) : WinResult :=
  { outcome := .exit 1, dialogs := [msgPyError],
    envWrites := [(mp, "PATH"), (pp, "PYTHONPATH")], pyInit := true,
    pyRun := some (c, -1), wideCmd := some wc,
    steps := [.resolvePath, .stripFileSpec, .checkDir, .setEnv, .checkPyDll,
      .setEnv, .initInterp, .runCmd, .report false] }

/-- Result of a fully successful run. -/
def wrOk (mp pp wc c : String) (r : Int) : WinResult :=
  { outcome := .exit 0, dialogs := [],
    envWrites := [(mp, "PATH"), (pp, "PYTHONPATH")], pyInit := true,
    pyRun := some (c, r), wideCmd := some wc,
    steps := [.resolvePath, .stripFileSpec, .checkDir, .setEnv, .checkPyDll,
      .setEnv, .initInterp, .runCmd, .report true] }

/-- Result of a macOS run whose `PyRun_SimpleString` returned -1. -/
def mrErr : MacResult :=
  { outcome := .exit 1, alerts := [msgMacPyError], pyRun := some (macCmd, -1),
    steps := [.initInterp, .runCmd, .report false] }

/-- Result of a macOS run whose `PyRun_SimpleString` returned `r ≠ -1`. -/
def mrOk (r : Int) : MacResult :=
  { outcome := .exit 0, alerts := [], pyRun := some (macCmd, r),
    steps := [.initInterp, .runCmd, .report true] }

/-- The dialog texts of the six checks that precede the first `_wputenv_s`
call in the Windows launcher. -/
def earlyDialogs : List String :=
  [msgGMFN, msgStrip, msgBinMissing, msgBinNotDir, msgPathEnvFail, msgAllocFail]

/-- The hand-off fragment both launchers place in their startup command. -/
def importHandoff : String := "import bookmarks; bookmarks.exec_();"

/-! ### Concrete worlds for evaluation -/

/-- A Windows world where `GetModuleFileNameW` fails. -/
def winGmfnFailWorld : WinWorld where
  getModuleFileNameW := none
  pathRemoveFileSpecW := fun _ => none
  wstatMode := fun _ => none
  pathEnv := none
  mallocOk := false
  wideChar := ⟨fun _ => 0, fun _ => none⟩
  pyRunSimpleString := fun _ => 0

/-- A Windows world where everything up to the `bin` check succeeds but
`_wstat` fails on every path (so `bin` is missing). -/
def winBinMissingWorld : WinWorld where
  getModuleFileNameW := some "C:\\app\\bookmarks.exe"
  pathRemoveFileSpecW := fun _ => some "C:\\app"
  wstatMode := fun _ => none
  pathEnv := some "C:\\old"
  mallocOk := true
  wideChar := ⟨fun _ => 1, fun s => some s⟩
  pyRunSimpleString := fun _ => 0

/-- A Windows world where setup succeeds except that `python27.dll` is
missing next to the executable. -/
def winDllMissingWorld : WinWorld where
  getModuleFileNameW := some "C:\\app\\bookmarks.exe"
  pathRemoveFileSpecW := fun _ => some "C:\\app"
  wstatMode := fun s => if s = "C:\\app\\python27.dll" then none else some S_IFDIR
  pathEnv := some "C:\\old"
  mallocOk := true
  wideChar := ⟨fun _ => 1, fun s => some s⟩
  pyRunSimpleString := fun _ => 0

/-- A Windows world where every setup step succeeds but the second
`WideCharToMultiByte` call fails, so `WstrToUtf8Str` throws. -/
def winConvFailWorld : WinWorld where
  getModuleFileNameW := some "C:\\app\\bookmarks.exe"
  pathRemoveFileSpecW := fun _ => some "C:\\app"
  wstatMode := fun _ => some S_IFDIR
  pathEnv := some "C:\\old"
  mallocOk := true
  wideChar := ⟨fun _ => 1, fun _ => none⟩
  pyRunSimpleString := fun _ => 0

/-- A second conversion-failure world, on a different install path. -/
def winConvFailWorld2 : WinWorld where
  getModuleFileNameW := some "D:\\gw\\bookmarks.exe"
  pathRemoveFileSpecW := fun _ => some "D:\\gw"
  wstatMode := fun _ => some S_IFDIR
  pathEnv := some "D:\\p"
  mallocOk := true
  wideChar := ⟨fun _ => 7, fun _ => none⟩
  pyRunSimpleString := fun _ => 0

/-- A conversion environment where the size probe answers 3 and the
converting call produces the bytes "xyz", used for concrete evaluation of
`WstrToUtf8Str`. -/
def convOracle : WideCharOracle := ⟨fun _ => 3, fun _ => some "xyz"⟩

/-- A macOS world whose Python command succeeds. -/
def macOkWorld : MacWorld where
  pyRunSimpleString := fun _ => 0

/-- A macOS world whose Python command fails. -/
def macErrWorld : MacWorld where
  pyRunSimpleString := fun _ => -1

/-- A macOS world used to inspect the executed step sequence. -/
def macStepsWorld : MacWorld where
  pyRunSimpleString := fun _ => 2

/-! ### Generated QtGui binding header (pyside2_qtgui_python.h)

The type-index block (lines 159-457) and converter-index block (lines
465-512) of the generated header, transcribed as (macro name, value) pairs,
together with the two count macros.  `SbkPySide2_QtGuiTypes` has
`SBK_QtGui_IDX_COUNT` entries and `SbkPySide2_QtGuiTypeConverters` has
`SBK_QtGui_CONVERTERS_IDX_COUNT` entries, so a lookup through a constant is
in bounds exactly when the constant is below the respective count. -/

/-- Value of `SBK_QtGui_IDX_COUNT` (line 457). -/
def SBK_QtGui_IDX_COUNT : Nat := 295

/-- Value of `SBK_QtGui_CONVERTERS_IDX_COUNT` (line 512). -/
def SBK_QtGui_CONVERTERS_IDX_COUNT : Nat := 46

/-- Every `SBK_*_IDX` macro of the type-index block, in source order. -/
def sbkTypeIndices : List (String × Nat) := [
("SBK_QMATRIX4X3_IDX", 113),
  ("SBK_QMATRIX4X2_IDX", 112),
  ("SBK_QMATRIX3X4_IDX", 111),
  ("SBK_QMATRIX3X3_IDX", 110),
  ("SBK_QMATRIX3X2_IDX", 109),
  ("SBK_QMATRIX2X4_IDX", 108),
  ("SBK_QMATRIX2X3_IDX", 107),
  ("SBK_QMATRIX2X2_IDX", 106),
  ("SBK_QDESKTOPSERVICES_IDX", 27),
  ("SBK_QTEXTTABLECELL_IDX", 270),
  ("SBK_QTEXTFRAGMENT_IDX", 241),
  ("SBK_QTEXTBLOCK_IDX", 216),
  ("SBK_QTEXTBLOCK_ITERATOR_IDX", 217),
  ("SBK_QTEXTBLOCKUSERDATA_IDX", 220),
  ("SBK_QTEXTOBJECTINTERFACE_IDX", 263),
  ("SBK_QTEXTLINE_IDX", 256),
  ("SBK_QTEXTLINE_EDGE_IDX", 258),
  ("SBK_QTEXTLINE_CURSORPOSITION_IDX", 257),
  ("SBK_QTEXTINLINEOBJECT_IDX", 248),
  ("SBK_QTEXTCURSOR_IDX", 225),
  ("SBK_QTEXTCURSOR_MOVEMODE_IDX", 226),
  ("SBK_QTEXTCURSOR_MOVEOPERATION_IDX", 227),
  ("SBK_QTEXTCURSOR_SELECTIONTYPE_IDX", 228),
  ("SBK_QFONTDATABASE_IDX", 62),
  ("SBK_QFONTDATABASE_WRITINGSYSTEM_IDX", 64),
  ("SBK_QFONTDATABASE_SYSTEMFONT_IDX", 63),
  ("SBK_QTEXTFORMAT_IDX", 236),
  ("SBK_QTEXTFORMAT_FORMATTYPE_IDX", 237),
  ("SBK_QTEXTFORMAT_PROPERTY_IDX", 240),
  ("SBK_QTEXTFORMAT_OBJECTTYPES_IDX", 238),
  ("SBK_QTEXTFORMAT_PAGEBREAKFLAG_IDX", 239),
  ("SBK_QFLAGS_QTEXTFORMAT_PAGEBREAKFLAG__IDX", 48),
  ("SBK_QTEXTLISTFORMAT_IDX", 260),
  ("SBK_QTEXTLISTFORMAT_STYLE_IDX", 261),
  ("SBK_QTEXTBLOCKFORMAT_IDX", 218),
  ("SBK_QTEXTBLOCKFORMAT_LINEHEIGHTTYPES_IDX", 294),
  ("SBK_QTEXTFRAMEFORMAT_IDX", 244),
  ("SBK_QTEXTFRAMEFORMAT_POSITION_IDX", 246),
  ("SBK_QTEXTFRAMEFORMAT_BORDERSTYLE_IDX", 245),
  ("SBK_QTEXTTABLEFORMAT_IDX", 272),
  ("SBK_QTEXTLENGTH_IDX", 254),
  ("SBK_QTEXTLENGTH_TYPE_IDX", 255),
  ("SBK_QPAINTENGINESTATE_IDX", 150),
  ("SBK_QPAINTENGINE_IDX", 145),
  ("SBK_QPAINTENGINE_PAINTENGINEFEATURE_IDX", 147),
  ("SBK_QFLAGS_QPAINTENGINE_PAINTENGINEFEATURE__IDX", 42),
  ("SBK_QPAINTENGINE_DIRTYFLAG_IDX", 146),
  ("SBK_QFLAGS_QPAINTENGINE_DIRTYFLAG__IDX", 41),
  ("SBK_QPAINTENGINE_POLYGONDRAWMODE_IDX", 148),
  ("SBK_QPAINTENGINE_TYPE_IDX", 149),
  ("SBK_QTEXTITEM_IDX", 249),
  ("SBK_QTEXTITEM_RENDERFLAG_IDX", 250),
  ("SBK_QFLAGS_QTEXTITEM_RENDERFLAG__IDX", 49),
  ("SBK_QFONTMETRICSF_IDX", 67),
  ("SBK_QFONTMETRICS_IDX", 66),
  ("SBK_QFONTINFO_IDX", 65),
  ("SBK_QPEN_IDX", 165),
  ("SBK_QTEXTOPTION_IDX", 264),
  ("SBK_QTEXTOPTION_TABTYPE_IDX", 267),
  ("SBK_QTEXTOPTION_WRAPMODE_IDX", 268),
  ("SBK_QTEXTOPTION_FLAG_IDX", 265),
  ("SBK_QFLAGS_QTEXTOPTION_FLAG__IDX", 50),
  ("SBK_QTEXTOPTION_TAB_IDX", 266),
  ("SBK_QPAGESIZE_IDX", 135),
  ("SBK_QPAGESIZE_PAGESIZEID_IDX", 136),
  ("SBK_QPAGESIZE_UNIT_IDX", 138),
  ("SBK_QPAGESIZE_SIZEMATCHPOLICY_IDX", 137),
  ("SBK_QOPENGLFRAMEBUFFEROBJECT_IDX", 127),
  ("SBK_QOPENGLFRAMEBUFFEROBJECT_ATTACHMENT_IDX", 128),
  ("SBK_QOPENGLBUFFER_IDX", 120),
  ("SBK_QOPENGLBUFFER_TYPE_IDX", 123),
  ("SBK_QOPENGLBUFFER_USAGEPATTERN_IDX", 124),
  ("SBK_QOPENGLBUFFER_ACCESS_IDX", 121),
  ("SBK_QOPENGLBUFFER_RANGEACCESSFLAG_IDX", 122),
  ("SBK_QFLAGS_QOPENGLBUFFER_RANGEACCESSFLAG__IDX", 39),
  ("SBK_QMATRIX4X4_IDX", 114),
  ("SBK_QQUATERNION_IDX", 182),
  ("SBK_QVECTOR4D_IDX", 286),
  ("SBK_QVECTOR3D_IDX", 285),
  ("SBK_QPALETTE_IDX", 161),
  ("SBK_QPALETTE_COLORGROUP_IDX", 162),
  ("SBK_QPALETTE_COLORROLE_IDX", 163),
  ("SBK_QSURFACE_IDX", 204),
  ("SBK_QSURFACE_SURFACECLASS_IDX", 205),
  ("SBK_QSURFACE_SURFACETYPE_IDX", 206),
  ("SBK_QSURFACEFORMAT_IDX", 207),
  ("SBK_QSURFACEFORMAT_FORMATOPTION_IDX", 208),
  ("SBK_QFLAGS_QSURFACEFORMAT_FORMATOPTION__IDX", 46),
  ("SBK_QSURFACEFORMAT_SWAPBEHAVIOR_IDX", 211),
  ("SBK_QSURFACEFORMAT_RENDERABLETYPE_IDX", 210),
  ("SBK_QSURFACEFORMAT_OPENGLCONTEXTPROFILE_IDX", 209),
  ("SBK_QCURSOR_IDX", 26),
  ("SBK_QSTANDARDITEM_IDX", 197),
  ("SBK_QSTANDARDITEM_ITEMTYPE_IDX", 198),
  ("SBK_QFONT_IDX", 54),
  ("SBK_QFONT_STYLEHINT_IDX", 59),
  ("SBK_QFONT_STYLESTRATEGY_IDX", 60),
  ("SBK_QFONT_HINTINGPREFERENCE_IDX", 293),
  ("SBK_QFONT_WEIGHT_IDX", 61),
  ("SBK_QFONT_STYLE_IDX", 58),
  ("SBK_QFONT_STRETCH_IDX", 57),
  ("SBK_QFONT_CAPITALIZATION_IDX", 55),
  ("SBK_QFONT_SPACINGTYPE_IDX", 56),
  ("SBK_QTEXTCHARFORMAT_IDX", 221),
  ("SBK_QTEXTCHARFORMAT_VERTICALALIGNMENT_IDX", 224),
  ("SBK_QTEXTCHARFORMAT_UNDERLINESTYLE_IDX", 223),
  ("SBK_QTEXTCHARFORMAT_FONTPROPERTIESINHERITANCEBEHAVIOR_IDX", 222),
  ("SBK_QTEXTTABLECELLFORMAT_IDX", 271),
  ("SBK_QTEXTIMAGEFORMAT_IDX", 247),
  ("SBK_QGRADIENT_IDX", 68),
  ("SBK_QGRADIENT_TYPE_IDX", 72),
  ("SBK_QGRADIENT_SPREAD_IDX", 71),
  ("SBK_QGRADIENT_COORDINATEMODE_IDX", 69),
  ("SBK_QGRADIENT_INTERPOLATIONMODE_IDX", 70),
  ("SBK_QCONICALGRADIENT_IDX", 23),
  ("SBK_QRADIALGRADIENT_IDX", 183),
  ("SBK_QLINEARGRADIENT_IDX", 104),
  ("SBK_QBRUSH_IDX", 16),
  ("SBK_QPIXMAPCACHE_IDX", 177),
  ("SBK_QPIXMAPCACHE_KEY_IDX", 178),
  ("SBK_QPICTUREIO_IDX", 167),
  ("SBK_QIMAGEIOHANDLER_IDX", 87),
  ("SBK_QIMAGEIOHANDLER_IMAGEOPTION_IDX", 88),
  ("SBK_QIMAGEIOHANDLER_TRANSFORMATION_IDX", 89),
  ("SBK_QFLAGS_QIMAGEIOHANDLER_TRANSFORMATION__IDX", 38),
  ("SBK_QTRANSFORM_IDX", 280),
  ("SBK_QTRANSFORM_TRANSFORMATIONTYPE_IDX", 281),
  ("SBK_QSTATICTEXT_IDX", 200),
  ("SBK_QSTATICTEXT_PERFORMANCEHINT_IDX", 201),
  ("SBK_QRAWFONT_IDX", 185),
  ("SBK_QRAWFONT_ANTIALIASINGTYPE_IDX", 186),
  ("SBK_QRAWFONT_LAYOUTFLAG_IDX", 187),
  ("SBK_QFLAGS_QRAWFONT_LAYOUTFLAG__IDX", 45),
  ("SBK_QPAINTERPATHSTROKER_IDX", 160),
  ("SBK_QMATRIX_IDX", 105),
  ("SBK_QPAINTERPATH_IDX", 157),
  ("SBK_QPAINTERPATH_ELEMENTTYPE_IDX", 159),
  ("SBK_QPAINTERPATH_ELEMENT_IDX", 158),
  ("SBK_QPOLYGONF_IDX", 180),
  ("SBK_QVECTOR_QPOINTF_IDX", 180),
  ("SBK_QPOLYGON_IDX", 179),
  ("SBK_QVECTOR_QPOINT_IDX", 179),
  ("SBK_QPIXELFORMAT_IDX", 168),
  ("SBK_QPIXELFORMAT_COLORMODEL_IDX", 173),
  ("SBK_QPIXELFORMAT_ALPHAUSAGE_IDX", 171),
  ("SBK_QPIXELFORMAT_ALPHAPOSITION_IDX", 169),
  ("SBK_QPIXELFORMAT_ALPHAPREMULTIPLIED_IDX", 170),
  ("SBK_QPIXELFORMAT_TYPEINTERPRETATION_IDX", 174),
  ("SBK_QPIXELFORMAT_YUVLAYOUT_IDX", 175),
  ("SBK_QPIXELFORMAT_BYTEORDER_IDX", 172),
  ("SBK_QPAINTDEVICE_IDX", 142),
  ("SBK_QPAINTDEVICE_PAINTDEVICEMETRIC_IDX", 143),
  ("SBK_QPAGEDPAINTDEVICE_IDX", 139),
  ("SBK_QPAGEDPAINTDEVICE_PAGESIZE_IDX", 141),
  ("SBK_QPAGEDPAINTDEVICE_MARGINS_IDX", 140),
  ("SBK_QPICTURE_IDX", 166),
  ("SBK_QACCESSIBLEEVENT_IDX", 11),
  ("SBK_QACCESSIBLEINTERFACE_IDX", 12),
  ("SBK_QACCESSIBLE_IDX", 3),
  ("SBK_QACCESSIBLE_EVENT_IDX", 4),
  ("SBK_QACCESSIBLE_ROLE_IDX", 7),
  ("SBK_QACCESSIBLE_TEXT_IDX", 9),
  ("SBK_QACCESSIBLE_RELATIONFLAG_IDX", 6),
  ("SBK_QACCESSIBLE_INTERFACETYPE_IDX", 5),
  ("SBK_QACCESSIBLE_TEXTBOUNDARYTYPE_IDX", 10),
  ("SBK_QACCESSIBLE_STATE_IDX", 8),
  ("SBK_QTOUCHDEVICE_IDX", 274),
  ("SBK_QTOUCHDEVICE_DEVICETYPE_IDX", 276),
  ("SBK_QTOUCHDEVICE_CAPABILITYFLAG_IDX", 275),
  ("SBK_QFLAGS_QTOUCHDEVICE_CAPABILITYFLAG__IDX", 51),
  ("SBK_QVECTOR2D_IDX", 284),
  ("SBK_QKEYSEQUENCE_IDX", 100),
  ("SBK_QKEYSEQUENCE_STANDARDKEY_IDX", 103),
  ("SBK_QKEYSEQUENCE_SEQUENCEFORMAT_IDX", 101),
  ("SBK_QKEYSEQUENCE_SEQUENCEMATCH_IDX", 102),
  ("SBK_QCOLOR_IDX", 20),
  ("SBK_QCOLOR_SPEC_IDX", 22),
  ("SBK_QCOLOR_NAMEFORMAT_IDX", 21),
  ("SBK_QTEXTLAYOUT_IDX", 251),
  ("SBK_QTEXTLAYOUT_CURSORMODE_IDX", 252),
  ("SBK_QTEXTLAYOUT_FORMATRANGE_IDX", 253),
  ("SBK_QPIXMAP_IDX", 176),
  ("SBK_QIMAGE_IDX", 84),
  ("SBK_QIMAGE_INVERTMODE_IDX", 86),
  ("SBK_QIMAGE_FORMAT_IDX", 85),
  ("SBK_QBITMAP_IDX", 15),
  ("SBK_QICON_IDX", 77),
  ("SBK_QICON_MODE_IDX", 78),
  ("SBK_QICON_STATE_IDX", 79),
  ("SBK_QICONENGINE_IDX", 81),
  ("SBK_QICONENGINE_ICONENGINEHOOK_IDX", 83),
  ("SBK_QICONENGINE_AVAILABLESIZESARGUMENT_IDX", 82),
  ("SBK_QPAGELAYOUT_IDX", 131),
  ("SBK_QPAGELAYOUT_UNIT_IDX", 134),
  ("SBK_QPAGELAYOUT_ORIENTATION_IDX", 133),
  ("SBK_QPAGELAYOUT_MODE_IDX", 132),
  ("SBK_QPAINTER_IDX", 152),
  ("SBK_QPAINTER_RENDERHINT_IDX", 156),
  ("SBK_QFLAGS_QPAINTER_RENDERHINT__IDX", 44),
  ("SBK_QPAINTER_PIXMAPFRAGMENTHINT_IDX", 155),
  ("SBK_QFLAGS_QPAINTER_PIXMAPFRAGMENTHINT__IDX", 43),
  ("SBK_QPAINTER_COMPOSITIONMODE_IDX", 153),
  ("SBK_QPAINTER_PIXMAPFRAGMENT_IDX", 154),
  ("SBK_QBACKINGSTORE_IDX", 14),
  ("SBK_QWINDOWSTATECHANGEEVENT_IDX", 292),
  ("SBK_QSHORTCUTEVENT_IDX", 195),
  ("SBK_QDROPEVENT_IDX", 34),
  ("SBK_QDRAGMOVEEVENT_IDX", 33),
  ("SBK_QDRAGENTEREVENT_IDX", 31),
  ("SBK_QINPUTMETHODEVENT_IDX", 95),
  ("SBK_QINPUTMETHODEVENT_ATTRIBUTETYPE_IDX", 97),
  ("SBK_QINPUTMETHODEVENT_ATTRIBUTE_IDX", 96),
  ("SBK_QCLOSEEVENT_IDX", 19),
  ("SBK_QSTATUSTIPEVENT_IDX", 202),
  ("SBK_QRESIZEEVENT_IDX", 191),
  ("SBK_QHELPEVENT_IDX", 74),
  ("SBK_QEXPOSEEVENT_IDX", 36),
  ("SBK_QDRAGLEAVEEVENT_IDX", 32),
  ("SBK_QMOVEEVENT_IDX", 116),
  ("SBK_QHIDEEVENT_IDX", 75),
  ("SBK_QSHOWEVENT_IDX", 196),
  ("SBK_QICONDRAGEVENT_IDX", 80),
  ("SBK_QENTEREVENT_IDX", 35),
  ("SBK_QPAINTEVENT_IDX", 151),
  ("SBK_QFOCUSEVENT_IDX", 53),
  ("SBK_QINPUTEVENT_IDX", 94),
  ("SBK_QKEYEVENT_IDX", 99),
  ("SBK_QTABLETEVENT_IDX", 213),
  ("SBK_QTABLETEVENT_TABLETDEVICE_IDX", 215),
  ("SBK_QTABLETEVENT_POINTERTYPE_IDX", 214),
  ("SBK_QCONTEXTMENUEVENT_IDX", 24),
  ("SBK_QCONTEXTMENUEVENT_REASON_IDX", 25),
  ("SBK_QTOUCHEVENT_IDX", 277),
  ("SBK_QTOUCHEVENT_TOUCHPOINT_IDX", 278),
  ("SBK_QTOUCHEVENT_TOUCHPOINT_INFOFLAG_IDX", 279),
  ("SBK_QFLAGS_QTOUCHEVENT_TOUCHPOINT_INFOFLAG__IDX", 52),
  ("SBK_QWHEELEVENT_IDX", 288),
  ("SBK_QHOVEREVENT_IDX", 76),
  ("SBK_QMOUSEEVENT_IDX", 115),
  ("SBK_QTOOLBARCHANGEEVENT_IDX", 273),
  ("SBK_QFILEOPENEVENT_IDX", 37),
  ("SBK_QACTIONEVENT_IDX", 13),
  ("SBK_QWHATSTHISCLICKEDEVENT_IDX", 287),
  ("SBK_QREGION_IDX", 189),
  ("SBK_QREGION_REGIONTYPE_IDX", 190),
  ("SBK_QOPENGLCONTEXT_IDX", 125),
  ("SBK_QOPENGLCONTEXT_OPENGLMODULETYPE_IDX", 126),
  ("SBK_QSESSIONMANAGER_IDX", 193),
  ("SBK_QSESSIONMANAGER_RESTARTHINT_IDX", 194),
  ("SBK_QSCREEN_IDX", 192),
  ("SBK_QCLIPBOARD_IDX", 17),
  ("SBK_QCLIPBOARD_MODE_IDX", 18),
  ("SBK_QVALIDATOR_IDX", 282),
  ("SBK_QVALIDATOR_STATE_IDX", 283),
  ("SBK_QINTVALIDATOR_IDX", 98),
  ("SBK_QREGEXPVALIDATOR_IDX", 188),
  ("SBK_QDOUBLEVALIDATOR_IDX", 28),
  ("SBK_QDOUBLEVALIDATOR_NOTATION_IDX", 29),
  ("SBK_QDRAG_IDX", 30),
  ("SBK_QSYNTAXHIGHLIGHTER_IDX", 212),
  ("SBK_QSTYLEHINTS_IDX", 203),
  ("SBK_QPYTEXTOBJECT_IDX", 181),
  ("SBK_QOPENGLSHADER_IDX", 129),
  ("SBK_QOPENGLSHADER_SHADERTYPEBIT_IDX", 130),
  ("SBK_QFLAGS_QOPENGLSHADER_SHADERTYPEBIT__IDX", 40),
  ("SBK_QPDFWRITER_IDX", 164),
  ("SBK_QSTANDARDITEMMODEL_IDX", 199),
  ("SBK_QGUIAPPLICATION_IDX", 73),
  ("SBK_QTEXTOBJECT_IDX", 262),
  ("SBK_QTEXTFRAME_IDX", 242),
  ("SBK_QTEXTTABLE_IDX", 269),
  ("SBK_QTEXTFRAME_ITERATOR_IDX", 243),
  ("SBK_QTEXTBLOCKGROUP_IDX", 219),
  ("SBK_QTEXTLIST_IDX", 259),
  ("SBK_QABSTRACTTEXTDOCUMENTLAYOUT_IDX", 0),
  ("SBK_QABSTRACTTEXTDOCUMENTLAYOUT_PAINTCONTEXT_IDX", 1),
  ("SBK_QABSTRACTTEXTDOCUMENTLAYOUT_SELECTION_IDX", 2),
  ("SBK_QWINDOW_IDX", 289),
  ("SBK_QWINDOW_VISIBILITY_IDX", 291),
  ("SBK_QWINDOW_ANCESTORMODE_IDX", 290),
  ("SBK_QPAINTDEVICEWINDOW_IDX", 144),
  ("SBK_QRASTERWINDOW_IDX", 184),
  ("SBK_QMOVIE_IDX", 117),
  ("SBK_QMOVIE_MOVIESTATE_IDX", 119),
  ("SBK_QMOVIE_CACHEMODE_IDX", 118),
  ("SBK_QIMAGEWRITER_IDX", 92),
  ("SBK_QIMAGEWRITER_IMAGEWRITERERROR_IDX", 93),
  ("SBK_QIMAGEREADER_IDX", 90),
  ("SBK_QIMAGEREADER_IMAGEREADERERROR_IDX", 91),
  ("SBK_QTEXTDOCUMENTWRITER_IDX", 235),
  ("SBK_QTEXTDOCUMENTFRAGMENT_IDX", 234),
  ("SBK_QTEXTDOCUMENT_IDX", 229),
  ("SBK_QTEXTDOCUMENT_METAINFORMATION_IDX", 231),
  ("SBK_QTEXTDOCUMENT_FINDFLAG_IDX", 230),
  ("SBK_QFLAGS_QTEXTDOCUMENT_FINDFLAG__IDX", 47),
  ("SBK_QTEXTDOCUMENT_RESOURCETYPE_IDX", 232),
  ("SBK_QTEXTDOCUMENT_STACKS_IDX", 233)]

/-- Every converter-index macro, in source order. -/
def sbkConverterIndices : List (String × Nat) := [
("SBK_WID_IDX", 0),
  ("SBK_QTGUI_QVECTOR_QTEXTLAYOUT_FORMATRANGE_IDX", 1),
  ("SBK_QTGUI_QLIST_INT_IDX", 2),
  ("SBK_QTGUI_QLIST_QFONTDATABASE_WRITINGSYSTEM_IDX", 3),
  ("SBK_QTGUI_QVECTOR_QTEXTLENGTH_IDX", 4),
  ("SBK_QTGUI_QMAP_INT_QVARIANT_IDX", 5),
  ("SBK_QTGUI_QLIST_QTEXTOPTION_TAB_IDX", 6),
  ("SBK_QTGUI_QVECTOR_QREAL_IDX", 7),
  ("SBK_QTGUI_QLIST_QREAL_IDX", 8),
  ("SBK_QTGUI_QVECTOR_QSIZE_IDX", 9),
  ("SBK_QTGUI_QLIST_FLOAT_IDX", 10),
  ("SBK_QTGUI_QPAIR_INT_INT_IDX", 11),
  ("SBK_QTGUI_QLIST_QSTANDARDITEMPTR_IDX", 12),
  ("SBK_QTGUI_QPAIR_QREAL_QCOLOR_IDX", 13),
  ("SBK_QTGUI_QVECTOR_QPAIR_QREAL_QCOLOR_IDX", 14),
  ("SBK_QTGUI_QLIST_QBYTEARRAY_IDX", 15),
  ("SBK_QTGUI_QVECTOR_QPOINTF_IDX", 16),
  ("SBK_QTGUI_QVECTOR_QUINT32_IDX", 17),
  ("SBK_QTGUI_QLIST_QPOLYGONF_IDX", 18),
  ("SBK_QTGUI_QLIST_QPOINTF_IDX", 19),
  ("SBK_QTGUI_QVECTOR_QPOINT_IDX", 20),
  ("SBK_QTGUI_QLIST_QPOINT_IDX", 21),
  ("SBK_QTGUI_QLIST_CONSTQTOUCHDEVICEPTR_IDX", 22),
  ("SBK_QTGUI_QLIST_QKEYSEQUENCE_IDX", 23),
  ("SBK_QTGUI_QLIST_QTEXTLAYOUT_FORMATRANGE_IDX", 24),
  ("SBK_QTGUI_QVECTOR_UNSIGNEDINT_IDX", 25),
  ("SBK_QTGUI_QLIST_QSIZE_IDX", 26),
  ("SBK_QTGUI_QVECTOR_QLINE_IDX", 27),
  ("SBK_QTGUI_QVECTOR_QLINEF_IDX", 28),
  ("SBK_QTGUI_QVECTOR_QRECT_IDX", 29),
  ("SBK_QTGUI_QVECTOR_QRECTF_IDX", 30),
  ("SBK_QTGUI_QLIST_QINPUTMETHODEVENT_ATTRIBUTE_IDX", 31),
  ("SBK_QTGUI_QLIST_QTOUCHEVENT_TOUCHPOINT_IDX", 32),
  ("SBK_QTGUI_QLIST_QOBJECTPTR_IDX", 33),
  ("SBK_QTGUI_QSET_QBYTEARRAY_IDX", 34),
  ("SBK_QTGUI_QLIST_QSCREENPTR_IDX", 35),
  ("SBK_QTGUI_QVECTOR_INT_IDX", 36),
  ("SBK_QTGUI_QHASH_INT_QBYTEARRAY_IDX", 37),
  ("SBK_QTGUI_QLIST_QPERSISTENTMODELINDEX_IDX", 38),
  ("SBK_QTGUI_QLIST_QWINDOWPTR_IDX", 39),
  ("SBK_QTGUI_QLIST_QTEXTFRAMEPTR_IDX", 40),
  ("SBK_QTGUI_QLIST_QTEXTBLOCK_IDX", 41),
  ("SBK_QTGUI_QVECTOR_QTEXTFORMAT_IDX", 42),
  ("SBK_QTGUI_QLIST_QVARIANT_IDX", 43),
  ("SBK_QTGUI_QLIST_QSTRING_IDX", 44),
  ("SBK_QTGUI_QMAP_QSTRING_QVARIANT_IDX", 45)]

/-! ### Branch lemmas -/

lemma winMain_gmfn_none (w : WinWorld) (hg : w.getModuleFileNameW = none) :
    winMain w = wrResolveFail := by
  simp only [winMain, hg, wrResolveFail]

lemma winMain_strip_fail (w : WinWorld) (exe : String)
    (hg : w.getModuleFileNameW = some exe)
    (hs : w.pathRemoveFileSpecW exe = none) :
    winMain w = wrStripFail := by
  simp only [winMain, hg, hs, wrStripFail]

lemma winMain_bin_missing (w : WinWorld) (exe path : String)
    (hg : w.getModuleFileNameW = some exe)
    (hs : w.pathRemoveFileSpecW exe = some path)
    (hb : w.wstatMode (path ++ "\\bin") = none) :
    winMain w = wrCheckFail msgBinMissing := by
  simp only [winMain, hg, hs, hb, wrCheckFail]

lemma winMain_bin_not_dir (w : WinWorld) (exe path : String) (m : Nat)
    (hg : w.getModuleFileNameW = some exe)
    (hs : w.pathRemoveFileSpecW exe = some path)
    (hb : w.wstatMode (path ++ "\\bin") = some m)
    (hd : m &&& S_IFDIR = 0) :
    winMain w = wrCheckFail msgBinNotDir := by
  simp [winMain, hg, hs, hb, hd, wrCheckFail]

lemma winMain_pathenv_none (w : WinWorld) (exe path : String) (m : Nat)
    (hg : w.getModuleFileNameW = some exe)
    (hs : w.pathRemoveFileSpecW exe = some path)
    (hb : w.wstatMode (path ++ "\\bin") = some m)
    (hd : m &&& S_IFDIR ≠ 0)
    (hp : w.pathEnv = none) :
    winMain w = wrCheckFail msgPathEnvFail := by
  simp only [winMain, hg, hs, hb, hp, wrCheckFail]
  simp [hd]

lemma winMain_alloc_fail (w : WinWorld) (exe path pathvar : String) (m : Nat)
    (hg : w.getModuleFileNameW = some exe)
    (hs : w.pathRemoveFileSpecW exe = some path)
    (hb : w.wstatMode (path ++ "\\bin") = some m)
    (hd : m &&& S_IFDIR ≠ 0)
    (hp : w.pathEnv = some pathvar)
    (hM : w.mallocOk = false) :
    winMain w = wrCheckFail msgAllocFail := by
  simp only [winMain, hg, hs, hb, hp, hM, wrCheckFail]
  simp [hd]

lemma winMain_dll_missing (w : WinWorld) (exe path pathvar : String) (m : Nat)
    (hg : w.getModuleFileNameW = some exe)
    (hs : w.pathRemoveFileSpecW exe = some path)
    (hb : w.wstatMode (path ++ "\\bin") = some m)
    (hd : m &&& S_IFDIR ≠ 0)
    (hp : w.pathEnv = some pathvar)
    (hM : w.mallocOk = true)
    (hq : w.wstatMode (path ++ "\\python27.dll") = none) :
    winMain w = wrDllFail (path ++ "\\bin" ++ ";" ++ pathvar) := by
  simp only [winMain, hg, hs, hb, hp, hM, hq, wrDllFail]
  simp [hd]

lemma winMain_conv_abort (w : WinWorld) (exe path pathvar e : String) (m m2 : Nat)
    (hg : w.getModuleFileNameW = some exe)
    (hs : w.pathRemoveFileSpecW exe = some path)
    (hb : w.wstatMode (path ++ "\\bin") = some m)
    (hd : m &&& S_IFDIR ≠ 0)
    (hp : w.pathEnv = some pathvar)
    (hM : w.mallocOk = true)
    (hq : w.wstatMode (path ++ "\\python27.dll") = some m2)
    (hc : (WstrToUtf8Str w.wideChar
        (winCmd (path ++ "\\bin" ++ ";" ++ pathvar) path)).1 = .error e) :
    winMain w = wrConvAbort (path ++ "\\bin" ++ ";" ++ pathvar)
      (path ++ "\\shared") (winCmd (path ++ "\\bin" ++ ";" ++ pathvar) path) e := by
  simp only [winMain, hg, hs, hb, hp, hM, hq, wrConvAbort]
  simp [hd, hc]

lemma winMain_py_error (w : WinWorld) (exe path pathvar c : String) (m m2 : Nat)
    (hg : w.getModuleFileNameW = some exe)
    (hs : w.pathRemoveFileSpecW exe = some path)
    (hb : w.wstatMode (path ++ "\\bin") = some m)
    (hd : m &&& S_IFDIR ≠ 0)
    (hp : w.pathEnv = some pathvar)
    (hM : w.mallocOk = true)
    (hq : w.wstatMode (path ++ "\\python27.dll") = some m2)
    (hc : (WstrToUtf8Str w.wideChar
        (winCmd (path ++ "\\bin" ++ ";" ++ pathvar) path)).1 = .ok c)
    (hr : w.pyRunSimpleString c = -1) :
    winMain w = wrPyErr (path ++ "\\bin" ++ ";" ++ pathvar)
      (path ++ "\\shared") (winCmd (path ++ "\\bin" ++ ";" ++ pathvar) path) c := by
  simp only [winMain, hg, hs, hb, hp, hM, hq, wrPyErr]
  simp [hd, hc, hr]

lemma winMain_success (w : WinWorld) (exe path pathvar c : String) (m m2 : Nat)
    (hg : w.getModuleFileNameW = some exe)
    (hs : w.pathRemoveFileSpecW exe = some path)
    (hb : w.wstatMode (path ++ "\\bin") = some m)
    (hd : m &&& S_IFDIR ≠ 0)
    (hp : w.pathEnv = some pathvar)
    (hM : w.mallocOk = true)
    (hq : w.wstatMode (path ++ "\\python27.dll") = some m2)
    (hc : (WstrToUtf8Str w.wideChar
        (winCmd (path ++ "\\bin" ++ ";" ++ pathvar) path)).1 = .ok c)
    (hr : w.pyRunSimpleString c ≠ -1) :
    winMain w = wrOk (path ++ "\\bin" ++ ";" ++ pathvar)
      (path ++ "\\shared") (winCmd (path ++ "\\bin" ++ ";" ++ pathvar) path) c
      (w.pyRunSimpleString c) := by
  simp only [winMain, hg, hs, hb, hp, hM, hq, wrOk]
  simp [hd, hc, hr]

/-- Exhaustive case analysis: every run of the Windows launcher produces one
of the nine result shapes. -/
lemma winMain_shapes (w : WinWorld) :
    winMain w = wrResolveFail ∨ winMain w = wrStripFail ∨
    winMain w = wrCheckFail msgBinMissing ∨
    winMain w = wrCheckFail msgBinNotDir ∨
    winMain w = wrCheckFail msgPathEnvFail ∨
    winMain w = wrCheckFail msgAllocFail ∨
    (∃ mp, winMain w = wrDllFail mp) ∨
    (∃ mp pp wc e, winMain w = wrConvAbort mp pp wc e) ∨
    (∃ mp pp wc c, winMain w = wrPyErr mp pp wc c) ∨
    (∃ mp pp wc c r, r ≠ -1 ∧ winMain w = wrOk mp pp wc c r) := by
  rcases hg : w.getModuleFileNameW with _ | exe
  · exact Or.inl (winMain_gmfn_none w hg)
  rcases hs : w.pathRemoveFileSpecW exe with _ | path
  · exact Or.inr (Or.inl (winMain_strip_fail w exe hg hs))
  rcases hb : w.wstatMode (path ++ "\\bin") with _ | m
  · exact Or.inr (Or.inr (Or.inl (winMain_bin_missing w exe path hg hs hb)))
  by_cases hd : m &&& S_IFDIR = 0
  · exact Or.inr (Or.inr (Or.inr (Or.inl
      (winMain_bin_not_dir w exe path m hg hs hb hd))))
  rcases hp : w.pathEnv with _ | pathvar
  · exact Or.inr (Or.inr (Or.inr (Or.inr (Or.inl
      (winMain_pathenv_none w exe path m hg hs hb hd hp)))))
  rcases hM : w.mallocOk with _ | _
  · exact Or.inr (Or.inr (Or.inr (Or.inr (Or.inr (Or.inl
      (winMain_alloc_fail w exe path pathvar m hg hs hb hd hp hM))))))
  rcases hq : w.wstatMode (path ++ "\\python27.dll") with _ | m2
  · exact Or.inr (Or.inr (Or.inr (Or.inr (Or.inr (Or.inr (Or.inl
      ⟨path ++ "\\bin" ++ ";" ++ pathvar,
        winMain_dll_missing w exe path pathvar m hg hs hb hd hp hM hq⟩))))))
  rcases hc : (WstrToUtf8Str w.wideChar
      (winCmd (path ++ "\\bin" ++ ";" ++ pathvar) path)).1 with e | c
  · exact Or.inr (Or.inr (Or.inr (Or.inr (Or.inr (Or.inr (Or.inr (Or.inl
      ⟨path ++ "\\bin" ++ ";" ++ pathvar, path ++ "\\shared",
        winCmd (path ++ "\\bin" ++ ";" ++ pathvar) path, e,
        winMain_conv_abort w exe path pathvar e m m2 hg hs hb hd hp hM hq hc⟩)))))))
  by_cases hr : w.pyRunSimpleString c = -1
  · exact Or.inr (Or.inr (Or.inr (Or.inr (Or.inr (Or.inr (Or.inr (Or.inr (Or.inl
      ⟨path ++ "\\bin" ++ ";" ++ pathvar, path ++ "\\shared",
        winCmd (path ++ "\\bin" ++ ";" ++ pathvar) path, c,
        winMain_py_error w exe path pathvar c m m2 hg hs hb hd hp hM hq hc hr⟩))))))))
  · exact Or.inr (Or.inr (Or.inr (Or.inr (Or.inr (Or.inr (Or.inr (Or.inr (Or.inr
      ⟨path ++ "\\bin" ++ ";" ++ pathvar, path ++ "\\shared",
        winCmd (path ++ "\\bin" ++ ";" ++ pathvar) path, c, w.pyRunSimpleString c,
        hr,
        winMain_success w exe path pathvar c m m2 hg hs hb hd hp hM hq hc hr⟩))))))))

lemma macMain_err (wm : MacWorld) (h : wm.pyRunSimpleString macCmd = -1) :
    macMain wm = mrErr := by
  simp [macMain, h, mrErr]

lemma macMain_ok (wm : MacWorld) (h : wm.pyRunSimpleString macCmd ≠ -1) :
    macMain wm = mrOk (wm.pyRunSimpleString macCmd) := by
  simp [macMain, h, mrOk]

/-- Exhaustive case analysis for the macOS launcher. -/
lemma macMain_shapes (wm : MacWorld) :
    macMain wm = mrErr ∨ ∃ r, r ≠ -1 ∧ macMain wm = mrOk r := by
  by_cases h : wm.pyRunSimpleString macCmd = -1
  · exact Or.inl (macMain_err wm h)
  · exact Or.inr ⟨wm.pyRunSimpleString macCmd, h, macMain_ok wm h⟩

/-! ### Claims -/

/-- Claim C1: the specification says that before initialising the interpreter
the Windows launcher sets the PATH environment variable to
`<exe dir>\bin;<old PATH>` and PYTHONPATH to `<exe dir>\shared`.  The source
(lines 127 and 143) instead passes the value string as the first argument of
`_wputenv_s` and the literal variable name as the second, while the CRT
contract takes the variable name first; so on a fully successful run the two
writes create a variable named `C:\app\bin;C:\old` with value `PATH` and a
variable named `C:\app\shared` with value `PYTHONPATH`, and no write ever
targets a variable called PATH or PYTHONPATH.  This contradicts the comment
in the source (line 54: the DLL directory is to be added to the PATH env)
and the specification, so the code, not the claim, is wrong. -/
theorem c1_putenv_arguments_swapped :
    (winMain winOkWorld).envWrites =
      [("C:\\app\\bin;C:\\old", "PATH"), ("C:\\app\\shared", "PYTHONPATH")] ∧
    "PATH" ∉ (winMain winOkWorld).envWrites.map Prod.fst ∧
    "PYTHONPATH" ∉ (winMain winOkWorld).envWrites.map Prod.fst := by
  decide

/-- Claim C2: every setup failure of the Windows launcher -- failed
executable-path resolution, failed file-name strip, missing `bin`, `bin` not
a directory, failed PATH lookup, failed allocation, missing `python27.dll`,
or a Python error from the startup command -- shows exactly one blocking
dialog and terminates with exit code 1, with no retry and no recovery: each
failing check produces exactly the corresponding final result record, and
every exit-1 run shows exactly one dialog. -/
theorem c2_setup_failures_alert_and_exit1 :
    (∀ w : WinWorld, w.getModuleFileNameW = none → winMain w = wrResolveFail) ∧
    (∀ (w : WinWorld) (exe : String), w.getModuleFileNameW = some exe →
      w.pathRemoveFileSpecW exe = none → winMain w = wrStripFail) ∧
    (∀ (w : WinWorld) (exe path : String), w.getModuleFileNameW = some exe →
      w.pathRemoveFileSpecW exe = some path →
      w.wstatMode (path ++ "\\bin") = none →
      winMain w = wrCheckFail msgBinMissing) ∧
    (∀ (w : WinWorld) (exe path : String) (m : Nat),
      w.getModuleFileNameW = some exe →
      w.pathRemoveFileSpecW exe = some path →
      w.wstatMode (path ++ "\\bin") = some m → m &&& S_IFDIR = 0 →
      winMain w = wrCheckFail msgBinNotDir) ∧
    (∀ (w : WinWorld) (exe path : String) (m : Nat),
      w.getModuleFileNameW = some exe →
      w.pathRemoveFileSpecW exe = some path →
      w.wstatMode (path ++ "\\bin") = some m → m &&& S_IFDIR ≠ 0 →
      w.pathEnv = none → winMain w = wrCheckFail msgPathEnvFail) ∧
    (∀ (w : WinWorld) (exe path pathvar : String) (m : Nat),
      w.getModuleFileNameW = some exe →
      w.pathRemoveFileSpecW exe = some path →
      w.wstatMode (path ++ "\\bin") = some m → m &&& S_IFDIR ≠ 0 →
      w.pathEnv = some pathvar → w.mallocOk = false →
      winMain w = wrCheckFail msgAllocFail) ∧
    (∀ (w : WinWorld) (exe path pathvar : String) (m : Nat),
      w.getModuleFileNameW = some exe →
      w.pathRemoveFileSpecW exe = some path →
      w.wstatMode (path ++ "\\bin") = some m → m &&& S_IFDIR ≠ 0 →
      w.pathEnv = some pathvar → w.mallocOk = true →
      w.wstatMode (path ++ "\\python27.dll") = none →
      winMain w = wrDllFail (path ++ "\\bin" ++ ";" ++ pathvar)) ∧
    (∀ (w : WinWorld) (c : String), (winMain w).pyRun = some (c, -1) →
      (winMain w).outcome = .exit 1 ∧ (winMain w).dialogs = [msgPyError]) ∧
    (∀ w : WinWorld, (winMain w).outcome = .exit 1 →
      (winMain w).dialogs.length = 1) := by
  refine ⟨winMain_gmfn_none, winMain_strip_fail, winMain_bin_missing,
    winMain_bin_not_dir, winMain_pathenv_none, winMain_alloc_fail,
    winMain_dll_missing, ?_, ?_⟩
  · intro w c h
    rcases winMain_shapes w with h' | h' | h' | h' | h' | h' | ⟨mp, h'⟩ |
      ⟨mp, pp, wc, e, h'⟩ | ⟨mp, pp, wc, c', h'⟩ | ⟨mp, pp, wc, c', r, hr, h'⟩ <;>
      rw [h'] at h ⊢ <;>
      simp_all [wrResolveFail, wrStripFail, wrCheckFail, wrDllFail, wrConvAbort,
        wrPyErr, wrOk]
  · intro w h
    rcases winMain_shapes w with h' | h' | h' | h' | h' | h' | ⟨mp, h'⟩ |
      ⟨mp, pp, wc, e, h'⟩ | ⟨mp, pp, wc, c', h'⟩ | ⟨mp, pp, wc, c', r, hr, h'⟩ <;>
      rw [h'] at h ⊢ <;>
      simp_all [wrResolveFail, wrStripFail, wrCheckFail, wrDllFail, wrConvAbort,
        wrPyErr, wrOk]

/-- Witness for C2: on a world where GetModuleFileNameW fails, and on one
where only `python27.dll` is missing, the respective conjuncts produce the
exact failure records. -/
theorem c2_setup_failures_witness :
    winMain winGmfnFailWorld = wrResolveFail ∧
    winMain winDllMissingWorld = wrDllFail ("C:\\app" ++ "\\bin" ++ ";" ++ "C:\\old") := by
  constructor
  · exact c2_setup_failures_alert_and_exit1.1 winGmfnFailWorld rfl
  · exact c2_setup_failures_alert_and_exit1.2.2.2.2.2.2.1 winDllMissingWorld
      "C:\\app\\bookmarks.exe" "C:\\app" "C:\\old" S_IFDIR rfl rfl (by decide)
      (by decide) rfl rfl (by decide)

/-- Claim C3, counterexample: the claim says every execution of either
launcher terminates with exit code 0 or 1.  On a Windows world where every
setup step succeeds but the second `WideCharToMultiByte` call fails,
`WstrToUtf8Str` throws, the exception escapes `main`, and the process
terminates abnormally -- with neither exit code 0 nor exit code 1. -/
theorem c3_counterexample_abnormal_termination :
    (winMain winConvFailWorld).outcome ≠ .exit 0 ∧
    (winMain winConvFailWorld).outcome ≠ .exit 1 := by
  decide

/-- Claim C3 as amended: every execution of either launcher terminates with
exit code 0 or exit code 1, except Windows executions whose startup-command
UTF-8 conversion throws, which terminate abnormally without the startup
command ever running; exit code 0 occurs exactly when `PyRun_SimpleString`
is invoked and does not return -1. -/
theorem c3_exit_codes :
    (∀ wm : MacWorld,
      ((macMain wm).outcome = .exit 0 ∨ (macMain wm).outcome = .exit 1) ∧
      ((macMain wm).outcome = .exit 0 ↔
        ∃ c r, (macMain wm).pyRun = some (c, r) ∧ r ≠ -1)) ∧
    (∀ w : WinWorld,
      ((winMain w).outcome = .exit 0 ∨ (winMain w).outcome = .exit 1 ∨
        ∃ e, (winMain w).outcome = .abort e) ∧
      ((winMain w).outcome = .exit 0 ↔
        ∃ c r, (winMain w).pyRun = some (c, r) ∧ r ≠ -1) ∧
      (∀ e, (winMain w).outcome = .abort e → (winMain w).pyRun = none)) := by
  constructor
  · intro wm
    rcases macMain_shapes wm with h | ⟨r, hr, h⟩ <;> rw [h]
    · simp [mrErr]
    · simp [mrOk]
      exact ⟨macCmd, r, ⟨rfl, rfl⟩, hr⟩
  · intro w
    rcases winMain_shapes w with h | h | h | h | h | h | ⟨mp, h⟩ |
      ⟨mp, pp, wc, e, h⟩ | ⟨mp, pp, wc, c', h⟩ | ⟨mp, pp, wc, c', r, hr, h⟩ <;>
      rw [h] <;>
      simp [wrResolveFail, wrStripFail, wrCheckFail, wrDllFail, wrConvAbort,
        wrPyErr, wrOk]
    exact ⟨c', r, ⟨rfl, rfl⟩, hr⟩

/-- Witness for C3: on a macOS world whose Python command returns 0, the
characterisation yields exit code 0. -/
theorem c3_exit_codes_witness : (macMain macOkWorld).outcome = .exit 0 :=
  (c3_exit_codes.1 macOkWorld).2.mpr ⟨macCmd, 0, by decide, by decide⟩

/-- Claim C4, counterexample: the claim says each launcher executes the
sequence resolve path, check directory, set PATH/PYTHONPATH, initialise
interpreter, run one string, report.  The macOS launcher performs no path
resolution, no directory check and no environment write at all: its step
trace on any world lacks all three. -/
theorem c4_counterexample_mac_skips_setup :
    Step.resolvePath ∉ (macMain macStepsWorld).steps ∧
    Step.checkDir ∉ (macMain macStepsWorld).steps ∧
    Step.setEnv ∉ (macMain macStepsWorld).steps := by
  decide

/-- Claim C4 as amended: the Windows launcher executes the straight-line
sequence resolve path, strip file spec, check the `bin` directory, write an
environment variable, check `python27.dll`, write a second environment
variable, initialise the interpreter, run one command string, and report;
the macOS launcher executes only the tail -- initialise interpreter, run one
command string, report -- and never resolves a path, checks a directory, or
writes an environment variable. -/
theorem c4_control_flow_sequences :
    (∀ (w : WinWorld) (exe path pathvar c : String) (m m2 : Nat),
      w.getModuleFileNameW = some exe →
      w.pathRemoveFileSpecW exe = some path →
      w.wstatMode (path ++ "\\bin") = some m → m &&& S_IFDIR ≠ 0 →
      w.pathEnv = some pathvar → w.mallocOk = true →
      w.wstatMode (path ++ "\\python27.dll") = some m2 →
      (WstrToUtf8Str w.wideChar
        (winCmd (path ++ "\\bin" ++ ";" ++ pathvar) path)).1 = .ok c →
      ∃ b, (winMain w).steps = [.resolvePath, .stripFileSpec, .checkDir,
        .setEnv, .checkPyDll, .setEnv, .initInterp, .runCmd, .report b]) ∧
    (∀ wm : MacWorld, ∃ b,
      (macMain wm).steps = [.initInterp, .runCmd, .report b]) ∧
    (∀ wm : MacWorld, Step.resolvePath ∉ (macMain wm).steps ∧
      Step.checkDir ∉ (macMain wm).steps ∧ Step.setEnv ∉ (macMain wm).steps) := by
  refine ⟨?_, ?_, ?_⟩
  · intro w exe path pathvar c m m2 hg hs hb hd hp hM hq hc
    by_cases hr : w.pyRunSimpleString c = -1
    · exact ⟨false, by
        rw [winMain_py_error w exe path pathvar c m m2 hg hs hb hd hp hM hq hc hr]; rfl⟩
    · exact ⟨true, by
        rw [winMain_success w exe path pathvar c m m2 hg hs hb hd hp hM hq hc hr]; rfl⟩
  · intro wm
    rcases macMain_shapes wm with h | ⟨r, _, h⟩ <;> rw [h]
    · exact ⟨false, rfl⟩
    · exact ⟨true, rfl⟩
  · intro wm
    rcases macMain_shapes wm with h | ⟨r, _, h⟩ <;> rw [h] <;> simp [mrErr, mrOk]

/-- Witness for C4: on the fully successful world the Windows launcher
executes the complete step sequence. -/
theorem c4_control_flow_witness :
    ∃ b, (winMain winOkWorld).steps = [.resolvePath, .stripFileSpec, .checkDir,
      .setEnv, .checkPyDll, .setEnv, .initInterp, .runCmd, .report b] :=
  c4_control_flow_sequences.1 winOkWorld "C:\\app\\bookmarks.exe" "C:\\app"
    "C:\\old" (winCmd ("C:\\app" ++ "\\bin" ++ ";" ++ "C:\\old") "C:\\app")
    S_IFDIR S_IFDIR rfl rfl (by decide) (by decide) rfl rfl (by decide) rfl

/-- Claim C5: when every setup step of the Windows launcher succeeds -- the
executable path resolves, the file name strips, `bin` exists and is a
directory, the PATH lookup and the allocation succeed, `python27.dll` is
present -- and the startup Python command runs without error (it was invoked
and did not return -1), the launcher exits with code 0. -/
theorem c5_success_exits_0 :
    ∀ (w : WinWorld) (exe path pathvar c : String) (r : Int) (m m2 : Nat),
      w.getModuleFileNameW = some exe →
      w.pathRemoveFileSpecW exe = some path →
      w.wstatMode (path ++ "\\bin") = some m → m &&& S_IFDIR ≠ 0 →
      w.pathEnv = some pathvar → w.mallocOk = true →
      w.wstatMode (path ++ "\\python27.dll") = some m2 →
      (winMain w).pyRun = some (c, r) → r ≠ -1 →
      (winMain w).outcome = .exit 0 := by
  intro w exe path pathvar c r m m2 _ _ _ _ _ _ _ hpr hr
  rcases winMain_shapes w with h | h | h | h | h | h | ⟨mp, h⟩ |
    ⟨mp, pp, wc, e, h⟩ | ⟨mp, pp, wc, c', h⟩ | ⟨mp, pp, wc, c', r', hr', h⟩ <;>
    rw [h] at hpr ⊢ <;>
    simp_all [wrResolveFail, wrStripFail, wrCheckFail, wrDllFail, wrConvAbort,
      wrPyErr, wrOk]

/-- Witness for C5: the fully successful world exits with code 0. -/
theorem c5_success_witness : (winMain winOkWorld).outcome = .exit 0 :=
  c5_success_exits_0 winOkWorld "C:\\app\\bookmarks.exe" "C:\\app" "C:\\old"
    (winCmd ("C:\\app" ++ "\\bin" ++ ";" ++ "C:\\old") "C:\\app") 0 S_IFDIR
    S_IFDIR rfl rfl (by decide) (by decide) rfl rfl (by decide) (by decide)
    (by decide)

/-- Claim C6: the single command string each launcher hands to the embedded
interpreter imports the module named `bookmarks` and invokes
`bookmarks.exec_()`: the macOS command is exactly that hand-off followed by
`exit(0);`, and every Windows command -- whatever the spliced paths are --
ends with that hand-off. -/
theorem c6_command_hands_off_to_bookmarks :
    macCmd = importHandoff ++ " exit(0);" ∧
    ∀ mp p : String, ∃ pre, winCmd mp p = pre ++ importHandoff := by
  constructor
  · decide
  · intro mp p
    refine ⟨"import os;import sys;os.environ[\x27PATH\x27] = r\x27" ++ mp ++
      "\x27;sys.path.insert(0, r\x27" ++ (p ++ "\\shared") ++ "\x27);", ?_⟩
    have hsplit : ("\x27);import bookmarks; bookmarks.exec_();" : String) =
        "\x27);" ++ importHandoff := by decide
    simp only [winCmd, hsplit, String.append_assoc]

/-- Claim C7, counterexample: the claim says each execution either runs to
completion (exit 0) or exits through an error-dialog path (exit 1).  On a
Windows world whose startup-command conversion fails, the run does neither:
it terminates through an uncaught exception, showing no dialog. -/
theorem c7_counterexample_uncaught_exception :
    ¬((winMain winConvFailWorld2).outcome = .exit 0 ∨
      ((winMain winConvFailWorld2).outcome = .exit 1 ∧
        (winMain winConvFailWorld2).dialogs ≠ [])) := by
  decide

/-- Claim C7 as amended: both launcher main functions are straight-line and
total -- they are embedded as total functions, so they terminate on every
world -- and each execution runs to completion silently with exit code 0,
exits through an error-dialog path with exit code 1, or (Windows only, when
the startup-command conversion throws) terminates abnormally with the
startup command never run. -/
theorem c7_total_outcomes :
    (∀ wm : MacWorld,
      ((macMain wm).outcome = .exit 0 ∧ (macMain wm).alerts = []) ∨
      ((macMain wm).outcome = .exit 1 ∧ (macMain wm).alerts ≠ [])) ∧
    (∀ w : WinWorld,
      ((winMain w).outcome = .exit 0 ∧ (winMain w).dialogs = []) ∨
      ((winMain w).outcome = .exit 1 ∧ (winMain w).dialogs ≠ []) ∨
      (∃ e, (winMain w).outcome = .abort e ∧ (winMain w).pyRun = none)) := by
  constructor
  · intro wm
    rcases macMain_shapes wm with h | ⟨r, hr, h⟩ <;> rw [h]
    · right; simp [mrErr]
    · left; simp [mrOk]
  · intro w
    rcases winMain_shapes w with h | h | h | h | h | h | ⟨mp, h⟩ |
      ⟨mp, pp, wc, e, h⟩ | ⟨mp, pp, wc, c', h⟩ | ⟨mp, pp, wc, c', r, hr, h⟩ <;>
      rw [h] <;>
      simp [wrResolveFail, wrStripFail, wrCheckFail, wrDllFail, wrConvAbort,
        wrPyErr, wrOk]

/-- Claim C8: whenever the Windows launcher exits with code 1 from one of the
six checks that precede the first `_wputenv_s` call -- identified by their
dialog texts -- it has mutated no environment variable, has not initialised
the interpreter, and has never invoked the startup command. -/
theorem c8_early_exit_no_env_mutation :
    ∀ (w : WinWorld) (d : String),
      (winMain w).dialogs = [d] → d ∈ earlyDialogs →
      (winMain w).envWrites = [] ∧ (winMain w).pyInit = false ∧
      (winMain w).pyRun = none ∧ (winMain w).outcome = .exit 1 := by
  intro w d hd hmem
  rcases winMain_shapes w with h | h | h | h | h | h | ⟨mp, h⟩ |
    ⟨mp, pp, wc, e, h⟩ | ⟨mp, pp, wc, c', h⟩ | ⟨mp, pp, wc, c', r, hr, h⟩ <;>
    rw [h] at hd ⊢
  · simp [wrResolveFail]
  · simp [wrStripFail]
  · simp [wrCheckFail]
  · simp [wrCheckFail]
  · simp [wrCheckFail]
  · simp [wrCheckFail]
  · simp only [wrDllFail, List.cons.injEq, and_true] at hd
    subst hd
    exact absurd hmem (by decide)
  · simp [wrConvAbort] at hd
  · simp only [wrPyErr, List.cons.injEq, and_true] at hd
    subst hd
    exact absurd hmem (by decide)
  · simp [wrOk] at hd

/-- Witness for C8: on the world where the `bin` directory is missing, the
launcher exits 1 with no environment write, no interpreter initialisation
and no command run. -/
theorem c8_early_exit_witness :
    (winMain winBinMissingWorld).envWrites = [] ∧
    (winMain winBinMissingWorld).pyInit = false ∧
    (winMain winBinMissingWorld).pyRun = none ∧
    (winMain winBinMissingWorld).outcome = .exit 1 :=
  c8_early_exit_no_env_mutation winBinMissingWorld msgBinMissing (by decide)
    (by decide)

/-- Claim C9: in the generated QtGui binding header every type-index macro
value is at least 0 (they are naturals) and strictly below
`SBK_QtGui_IDX_COUNT` = 295, and every converter-index macro value is
strictly below `SBK_QtGui_CONVERTERS_IDX_COUNT` = 46, so each lookup into
`SbkPySide2_QtGuiTypes` (295 entries) and `SbkPySide2_QtGuiTypeConverters`
(46 entries) through one of these constants stays in bounds. -/
theorem c9_binding_indices_in_bounds :
    SBK_QtGui_IDX_COUNT = 295 ∧ SBK_QtGui_CONVERTERS_IDX_COUNT = 46 ∧
    (∀ p ∈ sbkTypeIndices, p.2 < SBK_QtGui_IDX_COUNT) ∧
    (∀ p ∈ sbkConverterIndices, p.2 < SBK_QtGui_CONVERTERS_IDX_COUNT) := by
  refine ⟨rfl, rfl, ?_, ?_⟩ <;> decide

/-- Witness for C9: the first transcribed macro, `SBK_QMATRIX4X3_IDX` = 113,
is listed and in bounds. -/
theorem c9_binding_indices_witness :
    ("SBK_QMATRIX4X3_IDX", 113) ∈ sbkTypeIndices ∧
    (113 : Nat) < SBK_QtGui_IDX_COUNT :=
  ⟨by decide, c9_binding_indices_in_bounds.2.2.1 ("SBK_QMATRIX4X3_IDX", 113)
    (by decide)⟩

/-- Claim C10: `WstrToUtf8Str` returns the empty string on the empty wide
string with no `WideCharToMultiByte` call; it throws only when the
conversion of a non-empty input fails (non-empty input, positive size probe,
converting call returns 0); and for every successfully converted input it
returns exactly the bytes the conversion produced. -/
theorem c10_WstrToUtf8Str_contract :
    (∀ o : WideCharOracle, WstrToUtf8Str o "" = (.ok "", 0)) ∧
    (∀ (o : WideCharOracle) (ws e : String) (n : Nat),
      WstrToUtf8Str o ws = (.error e, n) →
      ws ≠ "" ∧ 0 < o.sizeRequired ws ∧ o.convertBytes ws = none) ∧
    (∀ (o : WideCharOracle) (ws bytes : String),
      ws ≠ "" → 0 < o.sizeRequired ws → o.convertBytes ws = some bytes →
      WstrToUtf8Str o ws = (.ok bytes, 2)) := by
  refine ⟨fun o => rfl, ?_, ?_⟩
  · intro o ws e n h
    by_cases hw : ws = ""
    · subst hw
      have hemp : ("" : String).isEmpty = true := rfl
      rw [WstrToUtf8Str, hemp] at h
      simp at h
    · have hne : ws.isEmpty = false := by
        rw [Bool.eq_false_iff]
        intro hx
        exact hw ((String.isEmpty_iff ws).mp hx)
      rw [WstrToUtf8Str, hne] at h
      simp only [Bool.false_eq_true, if_false] at h
      by_cases hs : 0 < o.sizeRequired ws
      · rw [if_pos hs] at h
        rcases hc : o.convertBytes ws with _ | bytes <;> rw [hc] at h
        · exact ⟨hw, hs, rfl⟩
        · simp at h
      · rw [if_neg hs] at h
        simp at h
  · intro o ws bytes hw hs hc
    have hne : ws.isEmpty = false := by
      rw [Bool.eq_false_iff]
      intro hx
      exact hw ((String.isEmpty_iff ws).mp hx)
    rw [WstrToUtf8Str, hne]
    simp [hs, hc]

/-- Witness for C10: with a conversion environment that answers size 3 and
bytes "xyz", the non-empty input "abc" converts to "xyz" in two calls. -/
theorem c10_WstrToUtf8Str_witness :
    WstrToUtf8Str convOracle "abc" = (.ok "xyz", 2) :=
  c10_WstrToUtf8Str_contract.2.2 convOracle "abc" "xyz" (by decide) (by decide)
    rfl
